import Mathlib

/-!
Shallow embedding of the `age_service` package (an age-estimation service
operating on a toy single-intensity image format) together with theorems
checking its specification.

Modelling conventions:
* Python `int` is modelled by `ℤ`, Python `float` by exact arithmetic
  (`ℚ` for the data pipeline; `ℝ` for the inverse-normal-CDF computation,
  whose source uses `sqrt` and `log`).  Floating-point rounding is not
  modelled.
* Python functions that raise are modelled with `Except`/`Option`.
* Untyped JSON-like payloads are modelled by the inductive `JsonValue`,
  and Python's `bool(...)`, `int(...)`, `float(...)` coercions by
  `pyTruthy`, `pyInt`, `pyFloat`.
-/

deriving instance DecidableEq for Except

section AgeServiceVerification

/- Batteries marks the `Rat` arithmetic operations `[irreducible]`; restore
the default reducibility locally so that concrete runs of the (computable)
embedding can be checked by `decide`. -/
attribute [local semireducible] Rat.add Rat.mul Rat.inv Rat.sub Rat.ofScientific

namespace AgeService

/-- Python `str.split(sep)` for a single-character separator, on the
character list of the string (structural recursion so that proofs can
evaluate it). -/
def splitOnChar (sep : Char) : List Char → List (List Char)
  | [] => [[]]
  | c :: rest =>
    let r := splitOnChar sep rest
    if c = sep then [] :: r else (c :: r.headD []) :: r.tail

/-- Python `str.split(sep)` returning strings. -/
def pySplit (sep : Char) (s : String) : List String :=
  (splitOnChar sep s.toList).map String.mk

/-! ## image.py -/

/-- `SimpleImage` from `image.py`: width, height and a uniform greyscale
intensity. -/
structure SimpleImage where
  width : ℤ
  height : ℤ
  intensity : ℚ
deriving DecidableEq

/-- `SimpleImage.crop_box`: clamp the requested box to the remaining extent,
never dropping below 1 pixel. -/
def SimpleImage.crop_box (img : SimpleImage) (x y width height : ℤ) : SimpleImage :=
  { width := max 1 (min width (img.width - x))
    height := max 1 (min height (img.height - y))
    intensity := img.intensity }

/-- `SimpleImage.resize`: declare new dimensions, carrying the intensity
through unchanged. -/
def SimpleImage.resize (img : SimpleImage) (size : ℤ × ℤ) : SimpleImage :=
  { width := size.1, height := size.2, intensity := img.intensity }

/-- `SimpleImage.mean_intensity`. -/
def SimpleImage.mean_intensity (img : SimpleImage) : ℚ := img.intensity

/-- `LoadedImage` from `image.py`: decoded image plus the raw decoded bytes. -/
structure LoadedImage where
  image : SimpleImage
  raw_bytes : List Nat
deriving DecidableEq

/-! ### String-to-number parsing (Python `int(str)` / `float(str)`)

The service's image payloads are plain decimal strings, so we model the
grammar subset of Python's numeric constructors that covers them: an
optional sign followed by decimal digits (with an optional decimal point
for `float`).  Surrounding whitespace, underscores, exponents and
`inf`/`nan`, which Python also accepts, do not occur in this service's
payloads and are not modelled. -/

def natOfDigits (l : List Char) : Nat :=
  l.foldl (fun a c => 10 * a + (c.toNat - 48)) 0

def allDigits (l : List Char) : Bool :=
  l.all (fun c => c.isDigit)

/-- Python `int(s)` on a decimal-literal string. -/
def pyParseInt (s : String) : Option ℤ :=
  match s.toList with
  | [] => none
  | '+' :: rest =>
    if rest ≠ [] ∧ allDigits rest then some (natOfDigits rest : ℤ) else none
  | '-' :: rest =>
    if rest ≠ [] ∧ allDigits rest then some (-(natOfDigits rest : ℤ)) else none
  | l =>
    if allDigits l then some (natOfDigits l : ℤ) else none

/-- Unsigned part of Python `float(s)`: `digits`, `digits.digits`,
`digits.` or `.digits`. -/
def pyParseFloatUnsigned (s : String) : Option ℚ :=
  match pySplit '.' s with
  | [a] =>
    if a ≠ "" ∧ allDigits a.toList then some (natOfDigits a.toList : ℚ) else none
  | [a, b] =>
    if (a ≠ "" ∨ b ≠ "") ∧ allDigits a.toList ∧ allDigits b.toList then
      some ((natOfDigits a.toList : ℚ) + (natOfDigits b.toList : ℚ) / (10 : ℚ) ^ b.length)
    else none
  | _ => none

/-- Python `float(s)` on a decimal-literal string. -/
def pyParseFloat (s : String) : Option ℚ :=
  match s.toList with
  | '+' :: rest => pyParseFloatUnsigned (String.mk rest)
  | '-' :: rest => (pyParseFloatUnsigned (String.mk rest)).map (fun q => -q)
  | _ => pyParseFloatUnsigned s

/-- Python `int(x)` on a number: truncation toward zero. -/
def pyTrunc (q : ℚ) : ℤ :=
  if q < 0 then -(Rat.floor (-q)) else Rat.floor q

/-! ### base64 (CPython `base64.b64decode(data, validate=True)`)

With `validate=True` CPython 3.11 runs `binascii.a2b_base64` in strict
mode: every character must be a base64 digit or trailing padding, padding
must be consistent with the number of data characters, and any violation
raises a `ValueError` subclass (which `load_base64_image` converts to its
single base64 error). -/

/-- Value of a base64 alphabet character. -/
def b64Index (c : Char) : Option Nat :=
  if 'A' ≤ c ∧ c ≤ 'Z' then some (c.toNat - 65)
  else if 'a' ≤ c ∧ c ≤ 'z' then some (c.toNat - 71)
  else if '0' ≤ c ∧ c ≤ '9' then some (c.toNat + 4)
  else if c = '+' then some 62
  else if c = '/' then some 63
  else none

/-- Split a base64 text into its data sextets and the count of trailing
padding characters; `none` when a character is outside the alphabet or a
padding character is followed by data. -/
def b64Sextets : List Char → Option (List Nat × Nat)
  | [] => some ([], 0)
  | c :: rest =>
    if c = '=' then
      if rest.all (fun d => d = '=') then some ([], rest.length + 1) else none
    else
      match b64Index c, b64Sextets rest with
      | some v, some (ds, p) => some (v :: ds, p)
      | _, _ => none

/-- Decode a run of sextets given the padding count `p`: full quads give
three bytes; a final triple requires one `=`, a final pair two. -/
def b64Bytes (p : Nat) : List Nat → Option (List Nat)
  | s0 :: s1 :: s2 :: s3 :: rest =>
    (b64Bytes p rest).map (fun bs =>
      (s0 * 4 + s1 / 16) :: ((s1 % 16) * 16 + s2 / 4) :: ((s2 % 4) * 64 + s3) :: bs)
  | [s0, s1, s2] =>
    if p = 1 then some [s0 * 4 + s1 / 16, (s1 % 16) * 16 + s2 / 4] else none
  | [s0, s1] =>
    if p = 2 then some [s0 * 4 + s1 / 16] else none
  | [_] => none
  | [] => some []

/-- CPython `base64.b64decode(s, validate=True)` (strict mode): leading
padding is rejected; excess padding after complete quads is tolerated. -/
def b64decode (s : String) : Option (List Nat) :=
  match b64Sextets s.toList with
  | none => none
  | some (ds, p) =>
    if ds = [] ∧ p ≠ 0 then none else b64Bytes p ds

/-- Python `bytes.decode("ascii")`. -/
def asciiDecode (bytes : List Nat) : Option String :=
  if bytes.all (fun b => b < 128) then some (String.mk (bytes.map Char.ofNat)) else none

/-- `_parse_payload` from `image.py`: the decoded payload must be
`width,height,intensity` with positive integer dimensions and an intensity
in `[0, 255]`. -/
def _parse_payload (payload : String) : Except String SimpleImage :=
  match pySplit ',' payload with
  | [width_str, height_str, intensity_str] =>
    match pyParseInt width_str, pyParseInt height_str, pyParseFloat intensity_str with
    | some width, some height, some intensity =>
      if width ≤ 0 ∨ height ≤ 0 then .error "image dimensions must be positive"
      else if ¬(0 ≤ intensity ∧ intensity ≤ 255) then
        .error "intensity must be between 0 and 255"
      else .ok { width := width, height := height, intensity := intensity }
    | _, _, _ => .error "image payload must be width,height,intensity"
  | _ => .error "image payload must be width,height,intensity"

/-- `load_base64_image` from `image.py`. -/
def load_base64_image (data : String) : Except String LoadedImage :=
  match b64decode data with
  | none => .error "Invalid base64 encoded image"
  | some raw =>
    match asciiDecode raw with
    | none => .error "Image payload must be ASCII"
    | some payload =>
      match _parse_payload payload with
      | .error e => .error e
      | .ok image => .ok { image := image, raw_bytes := raw }

/-- `normalise_image` from `image.py`: resize to 224x224. -/
def normalise_image (image : SimpleImage) : SimpleImage :=
  image.resize (224, 224)

/-! ## detector.py -/

/-- `FaceBoundingBox` from `detector.py`. -/
structure FaceBoundingBox where
  x : ℤ
  y : ℤ
  width : ℤ
  height : ℤ
deriving DecidableEq

/-- `FaceBoundingBox.as_tuple`. -/
def FaceBoundingBox.as_tuple (b : FaceBoundingBox) : ℤ × ℤ × ℤ × ℤ :=
  (b.x, b.y, b.width, b.height)

/-- `FaceDetection` from `detector.py`. -/
structure FaceDetection where
  bounding_box : FaceBoundingBox
  confidence : ℚ
  occluded : Bool := false
deriving DecidableEq

/-- `SimpleFaceDetector.name`. -/
def SimpleFaceDetector.name : String := "simple"

/-- `SimpleFaceDetector.detect_faces`: honour non-empty hints (one detection
per hint at confidence 0.9), otherwise a single detection over the central
80% of the image (Python `int(...)` truncation of `width * 0.1` etc.) at
confidence 0.5.  A `hints=None` call is modelled by the empty list, matching
Python's falsy test `if hints:`. -/
def SimpleFaceDetector.detect_faces (image : SimpleImage) (hints : List FaceBoundingBox) :
    List FaceDetection :=
  if hints ≠ [] then
    hints.map (fun hint => { bounding_box := hint, confidence := 0.9, occluded := false })
  else
    [{ bounding_box :=
        { x := pyTrunc ((image.width : ℚ) * 0.1)
          y := pyTrunc ((image.height : ℚ) * 0.1)
          width := pyTrunc ((image.width : ℚ) * 0.8)
          height := pyTrunc ((image.height : ℚ) * 0.8) }
       confidence := 0.5, occluded := false }]

/-- `crop_to_face` from `detector.py`. -/
def crop_to_face (image : SimpleImage) (detection : FaceDetection) : SimpleImage :=
  image.crop_box detection.bounding_box.x detection.bounding_box.y
    detection.bounding_box.width detection.bounding_box.height

/-! ## model.py -/

/-- `AgePrediction` from `model.py`. -/
structure AgePrediction where
  value : ℚ
  uncertainty : ℚ
deriving DecidableEq

/-- `CalibratedLinearModel` from `model.py`. -/
structure CalibratedLinearModel where
  slope : ℚ
  intercept : ℚ
  residual_std : ℚ
deriving DecidableEq

/-- `CalibratedLinearModel.predict`:
`value = slope * (mean_intensity / 255) + intercept`. -/
def CalibratedLinearModel.predict (m : CalibratedLinearModel) (image : SimpleImage) :
    AgePrediction :=
  { value := m.slope * (image.mean_intensity / 255) + m.intercept
    uncertainty := m.residual_std }

/-! ### `NormalDist.inv_cdf` (CPython `statistics._normal_dist_inv_cdf`)

`confidence_interval` calls `statistics.NormalDist.inv_cdf`, whose numeric
kernel is Wichura's AS241 rational approximation.  We embed that algorithm
over `ℝ` (its floating-point rounding is not modelled).  The returned value
is `mu + x * sigma` where the factor `x` depends only on `p`. -/

/-- AS241 central-branch numerator polynomial. -/
noncomputable def as241CentralNum (r : ℝ) : ℝ :=
  (((((((2.5090809287301226727e3 * r + 3.3430575583588128105e4) * r +
    6.7265770927008700853e4) * r + 4.5921953931549871457e4) * r +
    1.3731693765509461125e4) * r + 1.9715909503065514427e3) * r +
    1.3314166789178437745e2) * r + 3.387132872796366608)

/-- AS241 central-branch denominator polynomial. -/
noncomputable def as241CentralDen (r : ℝ) : ℝ :=
  (((((((5.226495278852854561e3 * r + 2.8729085735721942674e4) * r +
    3.930789580009271061e4) * r + 2.1213794301586595867e4) * r +
    5.3941960214247511077e3) * r + 6.871870074920579083e2) * r +
    4.2313330701600911252e1) * r + 1.0)

/-- AS241 middle-tail numerator polynomial (argument `r - 1.6`). -/
noncomputable def as241MidNum (r : ℝ) : ℝ :=
  (((((((7.7454501427834140764e-4 * r + 2.27238449892691845833e-2) * r +
    2.4178072517745061177e-1) * r + 1.27045825245236838258) * r +
    3.64784832476320460504) * r + 5.7694972214606914055) * r +
    4.6303378461565452959) * r + 1.42343711074968357734)

/-- AS241 middle-tail denominator polynomial (argument `r - 1.6`). -/
noncomputable def as241MidDen (r : ℝ) : ℝ :=
  (((((((1.05075007164441684324e-9 * r + 5.475938084995344946e-4) * r +
    1.51986665636164571966e-2) * r + 1.48103976427480074590e-1) * r +
    6.89767334985100004550e-1) * r + 1.6763848301838038494) * r +
    2.05319162663775882187) * r + 1.0)

/-- AS241 far-tail numerator polynomial (argument `r - 5`). -/
noncomputable def as241FarNum (r : ℝ) : ℝ :=
  (((((((2.01033439929228813265e-7 * r + 2.71155556874348757815e-5) * r +
    1.2426609473880784386e-3) * r + 2.65321895265761230930e-2) * r +
    2.96560571828504891230e-1) * r + 1.7848265399172913358) * r +
    5.4637849111641143699) * r + 6.6579046435011037772)

/-- AS241 far-tail denominator polynomial (argument `r - 5`). -/
noncomputable def as241FarDen (r : ℝ) : ℝ :=
  (((((((2.04426310338993978564e-15 * r + 1.4215117583164458887e-7) * r +
    1.8463183175100546818e-5) * r + 7.868691311456132591e-4) * r +
    1.48753612908506148525e-2) * r + 1.36929880922735805310e-1) * r +
    5.99832206555887937690e-1) * r + 1.0)

/-- AS241 central branch: `x = (q * num r) / den r` with `r = 0.180625 - q^2`. -/
noncomputable def as241Central (q : ℝ) : ℝ :=
  q * as241CentralNum (0.180625 - q * q) / as241CentralDen (0.180625 - q * q)

/-- AS241 tail: pick the middle or far polynomial pair by `r ≤ 5`. -/
noncomputable def as241TailX (r : ℝ) : ℝ :=
  if r ≤ 5 then as241MidNum (r - 1.6) / as241MidDen (r - 1.6)
  else as241FarNum (r - 5.0) / as241FarDen (r - 5.0)

/-- AS241 tail branch as a function of the selected tail probability `r0`
(`p` itself for the lower tail, `1 - p` for the upper). -/
noncomputable def as241Tail (r0 : ℝ) : ℝ :=
  as241TailX (Real.sqrt (-Real.log r0))

/-- The `x` factor computed by `_normal_dist_inv_cdf(p, mu, sigma)` (the
function returns `mu + x * sigma`).  In the source the tail branch selects
`r0 = p if q <= 0.0 else 1.0 - p` and finally negates `x` when `q < 0.0`;
since the tail branch is only reached when `|q| > 0.425` (so `q ≠ 0`), the
two sign tests coincide and are written here as a single `if`. -/
noncomputable def normInvCdfFactor (p : ℝ) : ℝ :=
  if |p - 0.5| ≤ 0.425 then as241Central (p - 0.5)
  else if p - 0.5 < 0 then -(as241Tail p) else as241Tail (1 - p)

/-- `NormalDist(mu, sigma).inv_cdf(p)` with CPython's `StatisticsError`
checks, in source order: `p` must lie strictly between 0 and 1, and the
quantile is not defined when sigma is at or below zero.  On the valid
domain the value is `mu + x * sigma` with `x` the AS241 factor. -/
noncomputable def inv_cdf (mu sigma p : ℝ) : Except String ℝ :=
  if p ≤ 0 ∨ 1 ≤ p then .error "p must be in the range 0.0 < p < 1.0"
  else if sigma ≤ 0 then .error "cdf() not defined when sigma at or below zero"
  else .ok (mu + normInvCdfFactor p * sigma)

/-- `confidence_interval` from `model.py`: clamp the level to `[0, 0.999]`,
return the degenerate point interval at level 0, otherwise the two-tailed
normal interval via the inverse CDF.  `NormalDist(mu=value,
sigma=uncertainty)` raises `StatisticsError` for a negative sigma, and
`inv_cdf` raises for sigma at or below zero; both raises are modelled as
`.error` with CPython's message, in evaluation order (construction, then
the lower bound, then the upper). -/
noncomputable def confidence_interval (prediction : AgePrediction) (level : ℚ) :
    Except String (ℝ × ℝ) :=
  let lvl := max (min level 0.999) 0
  if lvl ≤ 0 then .ok ((prediction.value : ℝ), (prediction.value : ℝ))
  else if (prediction.uncertainty : ℝ) < 0 then .error "sigma must be non-negative"
  else
    match inv_cdf (prediction.value : ℝ) (prediction.uncertainty : ℝ)
        ((1 - (lvl : ℝ)) / 2) with
    | .error e => .error e
    | .ok lower =>
      match inv_cdf (prediction.value : ℝ) (prediction.uncertainty : ℝ)
          (1 - (1 - (lvl : ℝ)) / 2) with
      | .error e => .error e
      | .ok upper => .ok (lower, upper)

/-! ## config.py

Configuration loading from disk is an external collaborator; the embedding
takes an already-loaded `AgeServiceConfig` value. -/

/-- `ModelMetadata` from `config.py`. -/
structure ModelMetadata where
  name : String
  version : String
  mean_absolute_error : ℚ
  calibration_date : String
  fairness_warnings : List String
  limitations : List String
deriving DecidableEq

/-- `AgeServiceConfig` from `config.py`. -/
structure AgeServiceConfig where
  min_image_edge : ℤ
  detector_name : String
  model_metadata : ModelMetadata
  default_confidence_level : ℚ
  return_face_bbox_default : Bool
deriving DecidableEq

/-! ## Untyped payload values and Python coercions -/

/-- A JSON-like untyped value, modelling the `Dict[str, object]` payloads
and their members. -/
inductive JsonValue where
  | null : JsonValue
  | bool : Bool → JsonValue
  | num : ℚ → JsonValue
  | str : String → JsonValue
  | arr : List JsonValue → JsonValue
  | obj : List (String × JsonValue) → JsonValue

/-- Python `dict` lookup (`d[k]` / `d.get(k)`): first matching key. -/
def jsonGet (kvs : List (String × JsonValue)) (key : String) : Option JsonValue :=
  (kvs.find? (fun kv => kv.1 == key)).map (fun kv => kv.2)

/-- Python `bool(value)` truthiness. -/
def pyTruthy : JsonValue → Bool
  | .null => false
  | .bool b => b
  | .num q => q != 0
  | .str s => s != ""
  | .arr l => !l.isEmpty
  | .obj kvs => !kvs.isEmpty

/-- Python `float(value)`: numbers pass through, booleans become 0/1,
strings are parsed; anything else raises (`none`). -/
def pyFloat : JsonValue → Option ℚ
  | .num q => some q
  | .bool b => some (if b then 1 else 0)
  | .str s => pyParseFloat s
  | _ => none

/-- Python `int(value)`: numbers truncate toward zero, booleans become 0/1,
strings must be integer literals; anything else raises (`none`). -/
def pyInt : JsonValue → Option ℤ
  | .num q => some (pyTrunc q)
  | .bool b => some (if b then 1 else 0)
  | .str s => pyParseInt s
  | _ => none

/-! ## exceptions.py -/

/-- The two domain errors from `exceptions.py` — `ValidationError`
(message, `field`) and `InferenceError` (message, `reason`) — plus the
`statistics.StatisticsError` that `confidence_interval` can raise and that
`run_inference` does not catch, so it escapes to the caller as a third,
non-domain outcome. -/
inductive AgeServiceError where
  | validation : String → Option String → AgeServiceError
  | inference : String → Option String → AgeServiceError
  | statistics : String → AgeServiceError
deriving DecidableEq

/-- The `field` attribute of an error (`none` for the non-validation
kinds). -/
def AgeServiceError.fieldOf : AgeServiceError → Option String
  | .validation _ f => f
  | .inference _ _ => none
  | .statistics _ => none

/-! ## validation.py -/

/-- `ValidatedRequest` from `validation.py`. -/
structure ValidatedRequest where
  image_base64 : String
  consent : Bool
  confidence_level : ℚ
  return_face_bbox : Bool
  detector_hints : List FaceBoundingBox
deriving DecidableEq

/-- `_coerce_confidence_level` from `validation.py`. -/
def _coerce_confidence_level (value : JsonValue) (field : String) :
    Except AgeServiceError ℚ :=
  match pyFloat value with
  | none => .error (.validation "confidence level must be a number" (some field))
  | some level =>
    if ¬(0 < level ∧ level < 1) then
      .error (.validation "confidence level must be in (0, 1)" (some field))
    else .ok level

/-- One entry of `detector_hints`: a dict with `int()`-coercible
`x`, `y`, `width`, `height`. -/
def parseHintEntry (entry : JsonValue) (field : String) :
    Except AgeServiceError FaceBoundingBox :=
  match entry with
  | .obj kvs =>
    match (jsonGet kvs "x").bind pyInt, (jsonGet kvs "y").bind pyInt,
        (jsonGet kvs "width").bind pyInt, (jsonGet kvs "height").bind pyInt with
    | some x, some y, some width, some height =>
      .ok { x := x, y := y, width := width, height := height }
    | _, _, _, _ => .error (.validation "invalid detector hint" (some field))
  | _ => .error (.validation "detector_hints entries must be objects" (some field))

/-- The entry loop of `_parse_detector_hints` (the first bad entry raises,
short-circuiting the loop). -/
def parseHintList (field : String) : List JsonValue → Except AgeServiceError (List FaceBoundingBox)
  | [] => .ok []
  | e :: rest =>
    match parseHintEntry e field with
    | .error err => .error err
    | .ok b =>
      match parseHintList field rest with
      | .error err => .error err
      | .ok bs => .ok (b :: bs)

/-- `_parse_detector_hints` from `validation.py` (`None` / absent yields the
empty list; a non-list value fails). -/
def _parse_detector_hints (value : Option JsonValue) (field : String) :
    Except AgeServiceError (List FaceBoundingBox) :=
  match value with
  | none => .ok []
  | some .null => .ok []
  | some (.arr entries) => parseHintList field entries
  | some _ => .error (.validation "detector_hints must be a list" (some field))

/-- `validate_payload` from `validation.py`: consent, image string,
confidence level (defaulted from configuration), bbox echo flag, hints —
checked in that order, stopping at the first failure. -/
def validate_payload (payload : JsonValue) (config : AgeServiceConfig) :
    Except AgeServiceError ValidatedRequest :=
  match payload with
  | .obj kvs =>
    match jsonGet kvs "consent" with
    | none => .error (.validation "consent is required" (some "consent"))
    | some consentVal =>
      if ¬pyTruthy consentVal then
        .error (.validation "consent must be granted" (some "consent"))
      else
        match jsonGet kvs "image_base64" with
        | none => .error (.validation "image_base64 is required" (some "image_base64"))
        | some (.str s) =>
          if s = "" then
            .error (.validation "image_base64 must be a non-empty string" (some "image_base64"))
          else
            match _coerce_confidence_level
                ((jsonGet kvs "confidence_level").getD (.num config.default_confidence_level))
                "confidence_level" with
            | .error e => .error e
            | .ok confidence_level =>
              let return_face_bbox :=
                pyTruthy ((jsonGet kvs "return_face_bbox").getD (.bool config.return_face_bbox_default))
              match _parse_detector_hints (jsonGet kvs "detector_hints") "detector_hints" with
              | .error e => .error e
              | .ok detector_hints =>
                .ok { image_base64 := s, consent := true, confidence_level := confidence_level,
                      return_face_bbox := return_face_bbox, detector_hints := detector_hints }
        | some _ =>
          .error (.validation "image_base64 must be a non-empty string" (some "image_base64"))
  | _ => .error (.validation "payload must be an object" none)

/-! ## api.py -/

/-- A face-detector implementation (the `BaseFaceDetector` capability):
a name and a `detect_faces` function. -/
structure Detector where
  name : String
  detect_faces : SimpleImage → List FaceBoundingBox → List FaceDetection

/-- The `SimpleFaceDetector()` instance. -/
def simpleDetector : Detector :=
  { name := SimpleFaceDetector.name, detect_faces := SimpleFaceDetector.detect_faces }

/-- An age-model implementation (the `AgeModel` protocol). -/
structure AgeModelImpl where
  model_name : String
  model_version : String
  predict : SimpleImage → AgePrediction

/-- `_resolve_detector` from `api.py`: an injected detector wins; otherwise
the configured name selects `SimpleFaceDetector` (and the fallback is also
`SimpleFaceDetector`). -/
def _resolve_detector (config : AgeServiceConfig) (provided : Option Detector) : Detector :=
  match provided with
  | some d => d
  | none =>
    if config.detector_name = SimpleFaceDetector.name then simpleDetector else simpleDetector

/-- `_resolve_model` from `api.py`: an injected model wins; otherwise
`CalibratedLinearModel(slope=60.0, intercept=5.0, residual_std=7.5)`. -/
def _resolve_model (config : AgeServiceConfig) (provided : Option AgeModelImpl) : AgeModelImpl :=
  match provided with
  | some m => m
  | none =>
    { model_name := "calibrated-linear", model_version := "1.0.0"
      predict := (CalibratedLinearModel.mk 60 5 7.5).predict }

/-- `_validate_image_size` from `api.py`. -/
def _validate_image_size (image : SimpleImage) (config : AgeServiceConfig) :
    Except AgeServiceError Unit :=
  if min image.width image.height < config.min_image_edge then
    .error (.validation
      ("image must be at least " ++ toString config.min_image_edge ++ "px on each edge")
      (some "image_base64"))
  else .ok ()

/-- The success-response dictionary assembled by `run_inference`, flattened
into a record. -/
structure Response where
  status : String
  age_value : ℚ
  ci_level : ℚ
  ci_lower : ℝ
  ci_upper : ℝ
  detector : String
  model_name : String
  model_version : String
  mean_absolute_error : ℚ
  calibration_date : String
  fairness_warnings : List String
  limitations : List String
  face_bbox : Option FaceBoundingBox

/-- `run_inference` from `api.py`.  Configuration loading is a collaborator,
so the configuration value is a parameter; the optional `detector` / `model`
keyword overrides are `Option` parameters. -/
noncomputable def run_inference (payload : JsonValue) (config : AgeServiceConfig)
    (detector : Option Detector) (model : Option AgeModelImpl) :
    Except AgeServiceError Response :=
  match validate_payload payload config with
  | .error e => .error e
  | .ok request =>
    match load_base64_image request.image_base64 with
    | .error msg => .error (.validation msg (some "image_base64"))
    | .ok loaded =>
      match _validate_image_size loaded.image config with
      | .error e => .error e
      | .ok _ =>
        let detector_impl := _resolve_detector config detector
        match detector_impl.detect_faces loaded.image request.detector_hints with
        | [] => .error (.inference "no faces detected" (some "no_faces"))
        | detection :: rest =>
          if rest ≠ [] then
            .error (.inference "multiple faces detected" (some "multiple_faces"))
          else if detection.occluded then
            .error (.inference "primary face appears occluded" (some "occluded"))
          else
            let cropped := crop_to_face loaded.image detection
            let normalised := normalise_image cropped
            let model_impl := _resolve_model config model
            let prediction := model_impl.predict normalised
            match confidence_interval prediction request.confidence_level with
            | .error e => .error (.statistics e)
            | .ok (lower, upper) =>
              .ok { status := "success"
                    age_value := prediction.value
                    ci_level := request.confidence_level
                    ci_lower := lower
                    ci_upper := upper
                    detector := detector_impl.name
                    model_name := config.model_metadata.name
                    model_version := config.model_metadata.version
                    mean_absolute_error := config.model_metadata.mean_absolute_error
                    calibration_date := config.model_metadata.calibration_date
                    fairness_warnings := config.model_metadata.fairness_warnings
                    limitations := config.model_metadata.limitations
                    face_bbox :=
                      if request.return_face_bbox then some detection.bounding_box else none }

/-! ## Concrete test fixtures

A configuration and a handful of payloads used to witness the theorems on
concrete inputs.  `"MjU2LDI1NiwxODAuMA=="` is base64 for `256,256,180.0`
and `"NSw1LDMwMC4w"` is base64 for `5,5,300.0` (intensity out of range). -/

def cfg0 : AgeServiceConfig :=
  { min_image_edge := 128, detector_name := "simple"
    model_metadata :=
      { name := "CalibratedLinearNet", version := "1.2.0", mean_absolute_error := 4.8
        calibration_date := "2025-03-01", fairness_warnings := ["fw"], limitations := ["lim"] }
    default_confidence_level := 0.9, return_face_bbox_default := false }

def hintDict (x y w h : ℚ) : JsonValue :=
  .obj [("x", .num x), ("y", .num y), ("width", .num w), ("height", .num h)]

def payloadOneHint : JsonValue :=
  .obj [("consent", .bool true), ("image_base64", .str "MjU2LDI1NiwxODAuMA==")
    , ("confidence_level", .num (1/2)), ("detector_hints", .arr [hintDict 10 10 100 120])]

def requestOneHint : ValidatedRequest :=
  { image_base64 := "MjU2LDI1NiwxODAuMA==", consent := true, confidence_level := 1/2
    return_face_bbox := false, detector_hints := [FaceBoundingBox.mk 10 10 100 120] }

def loaded256 : LoadedImage :=
  { image := { width := 256, height := 256, intensity := 180 }
    raw_bytes := [50, 53, 54, 44, 50, 53, 54, 44, 49, 56, 48, 46, 48] }

def payloadNoHints : JsonValue :=
  .obj [("consent", .bool true), ("image_base64", .str "MjU2LDI1NiwxODAuMA==")]

def requestNoHints : ValidatedRequest :=
  { image_base64 := "MjU2LDI1NiwxODAuMA==", consent := true, confidence_level := 0.9
    return_face_bbox := false, detector_hints := [] }

def payloadTwoHints : JsonValue :=
  .obj [("consent", .bool true), ("image_base64", .str "MjU2LDI1NiwxODAuMA==")
    , ("detector_hints", .arr [hintDict 1 1 2 2, hintDict 3 3 4 4])]

def requestTwoHints : ValidatedRequest :=
  { image_base64 := "MjU2LDI1NiwxODAuMA==", consent := true, confidence_level := 0.9
    return_face_bbox := false
    detector_hints := [FaceBoundingBox.mk 1 1 2 2, FaceBoundingBox.mk 3 3 4 4] }

def payloadBadIntensity : JsonValue :=
  .obj [("consent", .bool true), ("image_base64", .str "NSw1LDMwMC4w")]

def requestBadIntensity : ValidatedRequest :=
  { image_base64 := "NSw1LDMwMC4w", consent := true, confidence_level := 0.9
    return_face_bbox := false, detector_hints := [] }

/-! ## Theorems -/

/-- Claim C7: for every source image with positive dimensions and every
integer crop request `(x, y, w, h)`, the crop result has width exactly
`max(1, min(w, W - x))` and height exactly `max(1, min(h, H - y))`. -/
theorem crop_box_formula (img : SimpleImage) (x y w h : ℤ)
    (hW : 0 < img.width) (hH : 0 < img.height) :
    (img.crop_box x y w h).width = max 1 (min w (img.width - x)) ∧
    (img.crop_box x y w h).height = max 1 (min h (img.height - y)) :=
  ⟨rfl, rfl⟩

/-- Witness for C7 at a concrete image and crop request. -/
theorem crop_box_formula_witness :
    (0 : ℤ) < (SimpleImage.mk 256 256 180).width ∧
    (0 : ℤ) < (SimpleImage.mk 256 256 180).height ∧
    ((SimpleImage.mk 256 256 180).crop_box 10 10 100 120).width = max 1 (min 100 (256 - 10)) ∧
    ((SimpleImage.mk 256 256 180).crop_box 10 10 100 120).height = max 1 (min 120 (256 - 10)) :=
  ⟨by decide, by decide,
   (crop_box_formula (SimpleImage.mk 256 256 180) 10 10 100 120 (by decide) (by decide)).1,
   (crop_box_formula (SimpleImage.mk 256 256 180) 10 10 100 120 (by decide) (by decide)).2⟩

/-- Counterexample to claim C3 as stated: for the 256x256 image and the
crop request `(x, y, w, h) = (300, 0, 10, 10)` — an offset beyond the right
edge — the result width is 1, which exceeds `W - x = -44`. -/
theorem crop_box_exceeds_remaining_extent :
    ((SimpleImage.mk 256 256 180).crop_box 300 0 10 10).width = 1 ∧
    ¬(((SimpleImage.mk 256 256 180).crop_box 300 0 10 10).width ≤ 256 - 300) := by
  decide

/-- Claim C3 (amended): the crop result always has positive width and
height, and it is bounded by the remaining extent whenever the offset lies
strictly inside the image (`x < W` for the width bound, `y < H` for the
height bound); when the offset is at or beyond the edge the clamp to a
minimum size of 1 exceeds the (non-positive) remaining extent. -/
theorem crop_box_bounds (img : SimpleImage) (x y w h : ℤ) :
    (0 < (img.crop_box x y w h).width ∧ 0 < (img.crop_box x y w h).height) ∧
    (x < img.width → (img.crop_box x y w h).width ≤ img.width - x) ∧
    (y < img.height → (img.crop_box x y w h).height ≤ img.height - y) := by
  refine ⟨⟨?_, ?_⟩, fun hx => ?_, fun hy => ?_⟩ <;>
    simp only [SimpleImage.crop_box] <;> omega

/-- Witness for C3 (amended) at a concrete in-range crop. -/
theorem crop_box_bounds_witness :
    (10 : ℤ) < (SimpleImage.mk 256 256 180).width ∧
    ((SimpleImage.mk 256 256 180).crop_box 10 10 100 120).width ≤ 256 - 10 :=
  ⟨by decide, (crop_box_bounds (SimpleImage.mk 256 256 180) 10 10 100 120).2.1 (by decide)⟩

/-- Claim C6: with a non-empty hints list the simple detector returns one
detection per hint (that hint's box, confidence 0.9, occlusion unset);
with no hints it returns a single detection over the truncated central 80%
of the image at confidence 0.5. -/
theorem detect_faces_spec (image : SimpleImage) (hints : List FaceBoundingBox) :
    (hints ≠ [] →
      SimpleFaceDetector.detect_faces image hints =
        hints.map (fun hint =>
          { bounding_box := hint, confidence := 0.9, occluded := false }) ∧
      (SimpleFaceDetector.detect_faces image hints).length = hints.length) ∧
    (hints = [] →
      SimpleFaceDetector.detect_faces image hints =
        [{ bounding_box :=
            { x := pyTrunc ((image.width : ℚ) * 0.1)
              y := pyTrunc ((image.height : ℚ) * 0.1)
              width := pyTrunc ((image.width : ℚ) * 0.8)
              height := pyTrunc ((image.height : ℚ) * 0.8) }
           confidence := 0.5, occluded := false }]) := by
  constructor
  · intro hne
    rw [SimpleFaceDetector.detect_faces, if_pos hne]
    exact ⟨rfl, (List.length_map _ _)⟩
  · intro hnil
    rw [SimpleFaceDetector.detect_faces, hnil, if_neg (by simp)]

/-- Witness for C6 at a concrete hint list and at the no-hints case. -/
theorem detect_faces_spec_witness :
    ([FaceBoundingBox.mk 1 2 3 4] : List FaceBoundingBox) ≠ [] ∧
    SimpleFaceDetector.detect_faces (SimpleImage.mk 256 256 180) [FaceBoundingBox.mk 1 2 3 4] =
      List.map (fun hint =>
          { bounding_box := hint, confidence := 0.9, occluded := false })
        [FaceBoundingBox.mk 1 2 3 4] ∧
    SimpleFaceDetector.detect_faces (SimpleImage.mk 256 256 180) [] =
      [{ bounding_box :=
          { x := pyTrunc (((SimpleImage.mk 256 256 180).width : ℚ) * 0.1)
            y := pyTrunc (((SimpleImage.mk 256 256 180).height : ℚ) * 0.1)
            width := pyTrunc (((SimpleImage.mk 256 256 180).width : ℚ) * 0.8)
            height := pyTrunc (((SimpleImage.mk 256 256 180).height : ℚ) * 0.8) }
         confidence := 0.5, occluded := false }] :=
  ⟨by decide,
   ((detect_faces_spec (SimpleImage.mk 256 256 180) [FaceBoundingBox.mk 1 2 3 4]).1
      (by decide)).1,
   (detect_faces_spec (SimpleImage.mk 256 256 180) []).2 rfl⟩

/-- The AS241 central branch is an odd function of `q`. -/
theorem as241Central_neg (q : ℝ) : as241Central (-q) = -(as241Central q) := by
  unfold as241Central
  rw [show (0.180625 - -q * -q : ℝ) = 0.180625 - q * q from by ring]
  ring

/-- Reflection identity for the inverse-CDF factor: for tail probabilities
`t ∈ (0, 1/2)`, the factor at `1 - t` is the negation of the factor at `t`
(both branches of AS241 are symmetric by construction). -/
theorem normInvCdfFactor_reflect (t : ℝ) (h0 : 0 < t) (h2 : t < 1 / 2) :
    normInvCdfFactor (1 - t) = -(normInvCdfFactor t) := by
  have hhalf : (0.5 : ℝ) = 1 / 2 := by norm_num
  have hq : (1 : ℝ) - t - 0.5 = -(t - 0.5) := by ring
  unfold normInvCdfFactor
  rw [hq, abs_neg]
  by_cases hc : |t - 0.5| ≤ 0.425
  · rw [if_pos hc, if_pos hc, as241Central_neg]
  · rw [if_neg hc, if_neg hc]
    have ht : t - 0.5 < 0 := by rw [hhalf]; linarith
    have ht' : ¬(-(t - 0.5) < 0) := by linarith
    rw [if_pos ht, if_neg ht', show (1 : ℝ) - (1 - t) = t from by ring, neg_neg]

/-- For a positive level and a positive uncertainty, `confidence_interval`
returns an interval, and that interval is symmetric about the prediction
value. -/
theorem confidence_interval_ok (prediction : AgePrediction) (level : ℚ)
    (h0 : 0 < level) (hσ : 0 < prediction.uncertainty) :
    ∃ lower upper,
      confidence_interval prediction level = .ok (lower, upper) ∧
      (prediction.value : ℝ) - lower = upper - (prediction.value : ℝ) := by
  have hminpos : 0 < min level 0.999 := lt_min h0 (by norm_num)
  have hmax : max (min level 0.999) (0 : ℚ) = min level 0.999 := max_eq_left hminpos.le
  have hle : min level 0.999 ≤ (0.999 : ℚ) := min_le_right _ _
  have hlR0 : (0 : ℝ) < ((min level 0.999 : ℚ) : ℝ) := by exact_mod_cast hminpos
  have hlR1 : ((min level 0.999 : ℚ) : ℝ) ≤ ((0.999 : ℚ) : ℝ) := by exact_mod_cast hle
  have h999R : (((0.999 : ℚ)) : ℝ) < 1 := by norm_num
  have hσR : (0 : ℝ) < (prediction.uncertainty : ℝ) := by exact_mod_cast hσ
  set t : ℝ := (1 - ((min level 0.999 : ℚ) : ℝ)) / 2 with ht
  have ht0 : 0 < t := by rw [ht]; linarith
  have ht2 : t < 1 / 2 := by rw [ht]; linarith
  have hlow : inv_cdf (prediction.value : ℝ) (prediction.uncertainty : ℝ) t =
      .ok ((prediction.value : ℝ) + normInvCdfFactor t * (prediction.uncertainty : ℝ)) := by
    unfold inv_cdf
    rw [if_neg (by push_neg; constructor <;> linarith), if_neg (not_le.mpr hσR)]
  have hhigh : inv_cdf (prediction.value : ℝ) (prediction.uncertainty : ℝ) (1 - t) =
      .ok ((prediction.value : ℝ) +
        normInvCdfFactor (1 - t) * (prediction.uncertainty : ℝ)) := by
    unfold inv_cdf
    rw [if_neg (by push_neg; constructor <;> linarith), if_neg (not_le.mpr hσR)]
  have hci : confidence_interval prediction level =
      .ok ((prediction.value : ℝ) + normInvCdfFactor t * (prediction.uncertainty : ℝ),
           (prediction.value : ℝ) + normInvCdfFactor (1 - t) * (prediction.uncertainty : ℝ)) := by
    simp only [confidence_interval, hmax, if_neg (not_le.mpr hminpos),
      if_neg (not_lt.mpr hσR.le), ← ht, hlow, hhigh]
  exact ⟨_, _, hci, by rw [normInvCdfFactor_reflect t ht0 ht2]; ring⟩

/-- Counterexample to claim C5 as stated: at zero uncertainty and level
1/2 no interval (symmetric or otherwise) is returned — `NormalDist.inv_cdf`
raises `StatisticsError` because sigma is at or below zero. -/
theorem confidence_interval_raises_on_zero_uncertainty :
    confidence_interval (AgePrediction.mk 32 0) (1 / 2) =
      .error "cdf() not defined when sigma at or below zero" ∧
    ¬∃ lower upper,
      confidence_interval (AgePrediction.mk 32 0) (1 / 2) = .ok (lower, upper) := by
  have h1 : min (1 / 2 : ℚ) 0.999 = 1 / 2 := min_eq_left (by norm_num)
  have h2 : max (1 / 2 : ℚ) (0 : ℚ) = 1 / 2 := max_eq_left (by norm_num)
  have herr : confidence_interval (AgePrediction.mk 32 0) (1 / 2) =
      .error "cdf() not defined when sigma at or below zero" := by
    have hp : ¬((1 - ((1 / 2 : ℚ) : ℝ)) / 2 ≤ 0 ∨ 1 ≤ (1 - ((1 / 2 : ℚ) : ℝ)) / 2) := by
      push_neg
      constructor <;> [skip; skip] <;> push_cast <;> norm_num
    simp only [confidence_interval, h1, h2, inv_cdf,
      if_neg (by norm_num : ¬((1 / 2 : ℚ) ≤ 0)),
      if_neg (by push_cast; norm_num : ¬((((0 : ℚ)) : ℝ) < 0)),
      if_neg hp, if_pos (by push_cast; norm_num : (((0 : ℚ)) : ℝ) ≤ 0)]
  refine ⟨herr, ?_⟩
  rintro ⟨l, u, hok⟩
  rw [herr] at hok
  exact absurd hok (by simp)

/-- Claim C5 (amended): `confidence_interval` first clamps the level to
`[0, 0.999]`; a clamped level of 0 (any level ≤ 0) yields the degenerate
point interval at the prediction value; for a positive level, a negative
uncertainty makes `NormalDist` construction raise and a zero uncertainty
makes `inv_cdf` raise (`StatisticsError`, no interval returned); and for
any level in `(0, 0.999]` with positive uncertainty the returned interval
is symmetric about the prediction value. -/
theorem confidence_interval_spec (prediction : AgePrediction) (level : ℚ) :
    confidence_interval prediction level =
      confidence_interval prediction (max (min level 0.999) 0) ∧
    (level ≤ 0 →
      confidence_interval prediction level =
        .ok ((prediction.value : ℝ), (prediction.value : ℝ))) ∧
    (0 < level → prediction.uncertainty < 0 →
      confidence_interval prediction level = .error "sigma must be non-negative") ∧
    (0 < level → prediction.uncertainty = 0 →
      confidence_interval prediction level =
        .error "cdf() not defined when sigma at or below zero") ∧
    (0 < level → level ≤ 0.999 → 0 < prediction.uncertainty →
      ∃ lower upper,
        confidence_interval prediction level = .ok (lower, upper) ∧
        (prediction.value : ℝ) - lower = upper - (prediction.value : ℝ)) := by
  refine ⟨?_, fun hle => ?_, fun h0 hneg => ?_, fun h0 hzero => ?_, fun h0 h999 hσ => ?_⟩
  · have key : max (min (max (min level 0.999) 0) 0.999) (0 : ℚ) = max (min level 0.999) 0 := by
      have h1 : min (max (min level 0.999) 0) 0.999 = max (min level 0.999) 0 :=
        min_eq_left (max_le (min_le_right _ _) (by norm_num))
      rw [h1]
      exact max_eq_left (le_max_right _ _)
    simp only [confidence_interval]
    rw [key]
  · have hcond : max (min level 0.999) (0 : ℚ) ≤ 0 :=
      max_le (le_trans (min_le_left _ _) hle) le_rfl
    simp only [confidence_interval]
    rw [if_pos hcond]
  · have hminpos : 0 < min level 0.999 := lt_min h0 (by norm_num)
    have hmax : max (min level 0.999) (0 : ℚ) = min level 0.999 := max_eq_left hminpos.le
    have hσR : (prediction.uncertainty : ℝ) < 0 := by exact_mod_cast hneg
    simp only [confidence_interval, hmax]
    rw [if_neg (not_le.mpr hminpos), if_pos hσR]
  · have hminpos : 0 < min level 0.999 := lt_min h0 (by norm_num)
    have hmax : max (min level 0.999) (0 : ℚ) = min level 0.999 := max_eq_left hminpos.le
    have hle' : min level 0.999 ≤ (0.999 : ℚ) := min_le_right _ _
    have hlR0 : (0 : ℝ) < ((min level 0.999 : ℚ) : ℝ) := by exact_mod_cast hminpos
    have hlR1 : ((min level 0.999 : ℚ) : ℝ) ≤ ((0.999 : ℚ) : ℝ) := by exact_mod_cast hle'
    have h999R : (((0.999 : ℚ)) : ℝ) < 1 := by norm_num
    have hσR : (prediction.uncertainty : ℝ) = 0 := by exact_mod_cast hzero
    have hp : ¬((1 - ((min level 0.999 : ℚ) : ℝ)) / 2 ≤ 0 ∨
        1 ≤ (1 - ((min level 0.999 : ℚ) : ℝ)) / 2) := by
      push_neg
      constructor <;> linarith
    have hnotlt : ¬((prediction.uncertainty : ℝ) < 0) := by
      rw [hσR]
      exact lt_irrefl 0
    simp only [confidence_interval, hmax, inv_cdf,
      if_neg (not_le.mpr hminpos), if_neg hnotlt,
      if_neg hp, if_pos (le_of_eq hσR)]
  · exact confidence_interval_ok prediction level h0 hσ

/-- Witness for C5: concrete degenerate interval at level 0, a concrete
symmetric interval at level 1/2 for prediction (32, 3), and the concrete
raise at zero uncertainty. -/
theorem confidence_interval_spec_witness :
    ((0 : ℚ) ≤ 0) ∧
    confidence_interval (AgePrediction.mk 32 3) 0 =
      .ok (((AgePrediction.mk 32 3).value : ℝ), ((AgePrediction.mk 32 3).value : ℝ)) ∧
    ((0 : ℚ) < 1 / 2) ∧ ((1 : ℚ) / 2 ≤ 0.999) ∧
    ((0 : ℚ) < (AgePrediction.mk 32 3).uncertainty) ∧
    (∃ lower upper,
      confidence_interval (AgePrediction.mk 32 3) (1 / 2) = .ok (lower, upper) ∧
      ((AgePrediction.mk 32 3).value : ℝ) - lower =
        upper - ((AgePrediction.mk 32 3).value : ℝ)) ∧
    ((AgePrediction.mk 32 0).uncertainty = 0) ∧
    confidence_interval (AgePrediction.mk 32 0) (1 / 2) =
      .error "cdf() not defined when sigma at or below zero" :=
  ⟨le_rfl,
   (confidence_interval_spec (AgePrediction.mk 32 3) 0).2.1 le_rfl,
   by norm_num, by norm_num, by decide,
   (confidence_interval_spec (AgePrediction.mk 32 3) (1 / 2)).2.2.2.2
     (by norm_num) (by norm_num) (by decide),
   rfl,
   (confidence_interval_spec (AgePrediction.mk 32 0) (1 / 2)).2.2.2.1
     (by norm_num) rfl⟩

/-- Every error of `_coerce_confidence_level` is a `ValidationError` on the
supplied field. -/
theorem _coerce_confidence_level_error_cases (v : JsonValue) (field : String)
    (e : AgeServiceError) (h : _coerce_confidence_level v field = .error e) :
    e = .validation "confidence level must be a number" (some field) ∨
    e = .validation "confidence level must be in (0, 1)" (some field) := by
  unfold _coerce_confidence_level at h
  split at h
  · exact Or.inl (Except.error.inj h).symm
  · split at h
    · exact Or.inr (Except.error.inj h).symm
    · exact absurd h (by simp)

/-- Every error of `parseHintEntry` is a `ValidationError` on the supplied
field. -/
theorem parseHintEntry_error_cases (entry : JsonValue) (field : String)
    (e : AgeServiceError) (h : parseHintEntry entry field = .error e) :
    e = .validation "invalid detector hint" (some field) ∨
    e = .validation "detector_hints entries must be objects" (some field) := by
  unfold parseHintEntry at h
  split at h
  · split at h
    · exact absurd h (by simp)
    · exact Or.inl (Except.error.inj h).symm
  · exact Or.inr (Except.error.inj h).symm

/-- Every error of `parseHintList` is a `ValidationError` on the supplied
field. -/
theorem parseHintList_error_cases (field : String) (l : List JsonValue)
    (e : AgeServiceError) (h : parseHintList field l = .error e) :
    e = .validation "invalid detector hint" (some field) ∨
    e = .validation "detector_hints entries must be objects" (some field) := by
  induction l with
  | nil => exact absurd h (by simp [parseHintList])
  | cons x xs ih =>
    unfold parseHintList at h
    cases hx : parseHintEntry x field with
    | error err =>
      simp only [hx] at h
      cases Except.error.inj h
      exact parseHintEntry_error_cases x field _ hx
    | ok b =>
      simp only [hx] at h
      cases hrest : parseHintList field xs with
      | error err =>
        simp only [hrest] at h
        cases Except.error.inj h
        exact ih hrest
      | ok bs =>
        simp only [hrest] at h
        exact absurd h (by simp)

/-- Every error of `_parse_detector_hints` is a `ValidationError` on the
supplied field. -/
theorem _parse_detector_hints_error_cases (value : Option JsonValue) (field : String)
    (e : AgeServiceError) (h : _parse_detector_hints value field = .error e) :
    e = .validation "invalid detector hint" (some field) ∨
    e = .validation "detector_hints entries must be objects" (some field) ∨
    e = .validation "detector_hints must be a list" (some field) := by
  unfold _parse_detector_hints at h
  split at h
  · exact absurd h (by simp)
  · exact absurd h (by simp)
  · next entries => exact (parseHintList_error_cases field entries e h).imp id Or.inl
  · exact Or.inr (Or.inr (Except.error.inj h).symm)

/-- Every error of `validate_payload` is a `ValidationError`, and its
`field` is one of `none` (non-object payload), `consent`, `image_base64`,
`confidence_level` or `detector_hints`. -/
theorem validate_payload_error_cases (payload : JsonValue) (config : AgeServiceConfig)
    (e : AgeServiceError) (h : validate_payload payload config = .error e) :
    e = .validation "payload must be an object" none ∨
    (∃ m, e = .validation m (some "consent")) ∨
    (∃ m, e = .validation m (some "image_base64")) ∨
    (∃ m, e = .validation m (some "confidence_level")) ∨
    (∃ m, e = .validation m (some "detector_hints")) := by
  unfold validate_payload at h
  split at h
  case _ kvs =>
    split at h
    · exact Or.inr (Or.inl ⟨_, (Except.error.inj h).symm⟩)
    · split at h
      · exact Or.inr (Or.inl ⟨_, (Except.error.inj h).symm⟩)
      · split at h
        · exact Or.inr (Or.inr (Or.inl ⟨_, (Except.error.inj h).symm⟩))
        · split at h
          · exact Or.inr (Or.inr (Or.inl ⟨_, (Except.error.inj h).symm⟩))
          · split at h
            · next heq =>
              rcases _coerce_confidence_level_error_cases _ _ _ heq with hc | hc <;>
                exact Or.inr (Or.inr (Or.inr (Or.inl
                  ⟨_, ((Except.error.inj h).symm.trans hc)⟩)))
            · split at h
              · next heq =>
                rcases _parse_detector_hints_error_cases _ _ _ heq with hc | hc | hc <;>
                  exact Or.inr (Or.inr (Or.inr (Or.inr
                    ⟨_, ((Except.error.inj h).symm.trans hc)⟩)))
              · exact absurd h (by simp)
        · exact Or.inr (Or.inr (Or.inl ⟨_, (Except.error.inj h).symm⟩))
  · exact Or.inl (Except.error.inj h).symm

/-- Reduction of `validate_payload` once the consent and image checks have
passed: what remains is the confidence-level coercion, the truthiness
coercion of `return_face_bbox`, and the hint parsing. -/
theorem validate_payload_after_image (kvs : List (String × JsonValue))
    (config : AgeServiceConfig) (consentVal : JsonValue) (s : String)
    (hcons : jsonGet kvs "consent" = some consentVal)
    (htr : pyTruthy consentVal = true)
    (himg : jsonGet kvs "image_base64" = some (.str s))
    (hs : s ≠ "") :
    validate_payload (.obj kvs) config =
      match _coerce_confidence_level
          ((jsonGet kvs "confidence_level").getD (.num config.default_confidence_level))
          "confidence_level" with
      | .error e => .error e
      | .ok confidence_level =>
        match _parse_detector_hints (jsonGet kvs "detector_hints") "detector_hints" with
        | .error e => .error e
        | .ok detector_hints =>
          .ok { image_base64 := s, consent := true, confidence_level := confidence_level,
                return_face_bbox :=
                  pyTruthy ((jsonGet kvs "return_face_bbox").getD
                    (.bool config.return_face_bbox_default)),
                detector_hints := detector_hints } := by
  simp only [validate_payload, hcons, htr, himg, not_true, if_false, if_neg hs]

/-- Claim C8: when `confidence_level` is absent the configuration default
is used; when present, a value that does not coerce to a number, or
coerces to a number outside the open interval `(0, 1)` (including exactly
0 and exactly 1), fails validation with field `confidence_level`; an
in-range value is accepted verbatim. -/
theorem confidence_level_validation (kvs : List (String × JsonValue))
    (config : AgeServiceConfig) (consentVal : JsonValue) (s : String)
    (hcons : jsonGet kvs "consent" = some consentVal)
    (htr : pyTruthy consentVal = true)
    (himg : jsonGet kvs "image_base64" = some (.str s))
    (hs : s ≠ "") :
    (jsonGet kvs "confidence_level" = none →
      ∀ r, validate_payload (.obj kvs) config = .ok r →
        r.confidence_level = config.default_confidence_level) ∧
    (∀ v, jsonGet kvs "confidence_level" = some v →
      (pyFloat v = none →
        validate_payload (.obj kvs) config =
          .error (.validation "confidence level must be a number" (some "confidence_level"))) ∧
      (∀ q, pyFloat v = some q → ¬(0 < q ∧ q < 1) →
        validate_payload (.obj kvs) config =
          .error (.validation "confidence level must be in (0, 1)" (some "confidence_level"))) ∧
      (∀ q, pyFloat v = some q → 0 < q → q < 1 →
        ∀ r, validate_payload (.obj kvs) config = .ok r → r.confidence_level = q)) := by
  have hred := validate_payload_after_image kvs config consentVal s hcons htr himg hs
  constructor
  · intro hnone r hr
    rw [hred, hnone] at hr
    simp only [Option.getD, _coerce_confidence_level, pyFloat] at hr
    split at hr
    · exact absurd hr (by simp)
    · rename_i cl heq
      split at heq
      · exact absurd heq (by simp)
      · cases Except.ok.inj heq
        split at hr
        · exact absurd hr (by simp)
        · cases Except.ok.inj hr
          rfl
  · intro v hv
    refine ⟨fun hfl => ?_, fun q hfl hout => ?_, fun q hfl h0 h1 r hr => ?_⟩
    · rw [hred, hv]
      simp only [Option.getD, _coerce_confidence_level, hfl]
    · rw [hred, hv]
      simp only [Option.getD, _coerce_confidence_level, hfl]
      rw [if_pos hout]
    · rw [hred, hv] at hr
      have hnn : ¬¬(0 < q ∧ q < 1) := not_not_intro ⟨h0, h1⟩
      simp only [Option.getD, _coerce_confidence_level, hfl, if_neg hnn] at hr
      split at hr
      · exact absurd hr (by simp)
      · cases Except.ok.inj hr
        rfl

/-- Witness for C8: a concrete payload with `confidence_level = 1` is
rejected with field `confidence_level`. -/
theorem confidence_level_validation_witness :
    jsonGet [("consent", JsonValue.bool true), ("image_base64", JsonValue.str "abcd"),
        ("confidence_level", JsonValue.num 1)] "consent" = some (.bool true) ∧
    pyTruthy (.bool true) = true ∧
    ("abcd" : String) ≠ "" ∧
    pyFloat (JsonValue.num 1) = some 1 ∧
    ¬((0 : ℚ) < 1 ∧ (1 : ℚ) < 1) ∧
    validate_payload
        (.obj [("consent", JsonValue.bool true), ("image_base64", JsonValue.str "abcd"),
          ("confidence_level", JsonValue.num 1)])
        (AgeServiceConfig.mk 128 "simple"
          (ModelMetadata.mk "m" "1" 4 "2025-01-01" [] []) 0.9 false) =
      .error (.validation "confidence level must be in (0, 1)" (some "confidence_level")) :=
  ⟨rfl, rfl, by decide, rfl, by decide,
   (((confidence_level_validation
      [("consent", JsonValue.bool true), ("image_base64", JsonValue.str "abcd"),
        ("confidence_level", JsonValue.num 1)]
      (AgeServiceConfig.mk 128 "simple"
        (ModelMetadata.mk "m" "1" 4 "2025-01-01" [] []) 0.9 false)
      (JsonValue.bool true) "abcd" rfl rfl rfl
      (by decide)).2 (JsonValue.num 1) rfl).2.1 1 rfl (by decide))⟩

/-- Claim C10: `validate_payload` never rejects a payload because of
`return_face_bbox`: no error it returns carries that field, and on success
the flag is the Python truthiness of whatever value was supplied (or of
the configured default), so e.g. the string "false" yields `true`. -/
theorem return_face_bbox_validation :
    (∀ (payload : JsonValue) (config : AgeServiceConfig) (e : AgeServiceError),
      validate_payload payload config = .error e →
      e.fieldOf ≠ some "return_face_bbox") ∧
    (∀ (kvs : List (String × JsonValue)) (config : AgeServiceConfig) (r : ValidatedRequest),
      validate_payload (.obj kvs) config = .ok r →
      r.return_face_bbox =
        pyTruthy ((jsonGet kvs "return_face_bbox").getD
          (.bool config.return_face_bbox_default))) := by
  constructor
  · intro payload config e h
    rcases validate_payload_error_cases payload config e h with
      hc | ⟨m, hc⟩ | ⟨m, hc⟩ | ⟨m, hc⟩ | ⟨m, hc⟩ <;>
      subst hc <;> simp [AgeServiceError.fieldOf]
  · intro kvs config r hr
    simp only [validate_payload] at hr
    split at hr
    · exact absurd hr (by simp)
    · split at hr
      · exact absurd hr (by simp)
      · split at hr
        · exact absurd hr (by simp)
        · split at hr
          · exact absurd hr (by simp)
          · split at hr
            · exact absurd hr (by simp)
            · split at hr
              · exact absurd hr (by simp)
              · cases Except.ok.inj hr
                rfl
        · exact absurd hr (by simp)

/-- Witness for C10: a concrete failing payload (missing consent) carries
field `consent`, and a concrete payload with `return_face_bbox = "false"`
validates with the flag coerced to `true`. -/
theorem return_face_bbox_validation_witness :
    validate_payload (.obj []) (AgeServiceConfig.mk 128 "simple"
        (ModelMetadata.mk "m" "1" 4 "2025-01-01" [] []) 0.9 false) =
      .error (.validation "consent is required" (some "consent")) ∧
    (AgeServiceError.validation "consent is required" (some "consent")).fieldOf ≠
      some "return_face_bbox" ∧
    validate_payload
        (.obj [("consent", JsonValue.bool true), ("image_base64", JsonValue.str "abcd"),
          ("confidence_level", JsonValue.num (1/2)),
          ("return_face_bbox", JsonValue.str "false")])
        (AgeServiceConfig.mk 128 "simple"
          (ModelMetadata.mk "m" "1" 4 "2025-01-01" [] []) 0.9 false) =
      .ok (ValidatedRequest.mk "abcd" true (1/2) true []) ∧
    (ValidatedRequest.mk "abcd" true (1/2) true []).return_face_bbox =
      pyTruthy ((jsonGet [("consent", JsonValue.bool true),
          ("image_base64", JsonValue.str "abcd"),
          ("confidence_level", JsonValue.num (1/2)),
          ("return_face_bbox", JsonValue.str "false")] "return_face_bbox").getD
        (.bool false)) :=
  ⟨by decide,
   return_face_bbox_validation.1 (.obj []) (AgeServiceConfig.mk 128 "simple"
     (ModelMetadata.mk "m" "1" 4 "2025-01-01" [] []) 0.9 false) _ (by decide),
   by decide,
   return_face_bbox_validation.2 _ (AgeServiceConfig.mk 128 "simple"
     (ModelMetadata.mk "m" "1" 4 "2025-01-01" [] []) 0.9 false) _ (by decide)⟩

/-- `_parse_payload` either succeeds or fails with one of its three
messages. -/
theorem _parse_payload_cases (s : String) :
    (∃ img, _parse_payload s = .ok img) ∨
    _parse_payload s = .error "image payload must be width,height,intensity" ∨
    _parse_payload s = .error "image dimensions must be positive" ∨
    _parse_payload s = .error "intensity must be between 0 and 255" := by
  unfold _parse_payload
  split
  · split
    · split
      · exact Or.inr (Or.inr (Or.inl rfl))
      · split
        · exact Or.inr (Or.inr (Or.inr rfl))
        · exact Or.inl ⟨_, rfl⟩
    · exact Or.inr (Or.inl rfl)
  · exact Or.inr (Or.inl rfl)

/-- Counterexample to claim C4 as stated: decode failures do not all carry
one and the same message — an out-of-range intensity (`5,5,300.0`) and a
malformed field (`a,5,100`) produce two different error messages. -/
theorem load_base64_image_distinct_messages :
    load_base64_image "NSw1LDMwMC4w" = .error "intensity must be between 0 and 255" ∧
    load_base64_image "YSw1LDEwMA==" =
      .error "image payload must be width,height,intensity" ∧
    ("intensity must be between 0 and 255" : String) ≠
      "image payload must be width,height,intensity" := by
  exact ⟨by decide, by decide, by decide⟩

/-- Claim C4 (amended): every failure to decode an image payload raises the
same error class (a `ValueError`, surfaced by `run_inference` as a
`ValidationError` on field `image_base64`), with no distinction between
which dimension field was at fault; the message, however, identifies the
failure kind, one of five fixed strings. -/
theorem load_base64_image_error_class :
    (∀ s : String,
      (∃ l, load_base64_image s = .ok l) ∨
      ∃ msg, load_base64_image s = .error msg ∧
        (msg = "Invalid base64 encoded image" ∨
         msg = "Image payload must be ASCII" ∨
         msg = "image payload must be width,height,intensity" ∨
         msg = "image dimensions must be positive" ∨
         msg = "intensity must be between 0 and 255")) ∧
    (∀ (payload : JsonValue) (config : AgeServiceConfig) (request : ValidatedRequest)
        (msg : String) (detector : Option Detector) (model : Option AgeModelImpl),
      validate_payload payload config = .ok request →
      load_base64_image request.image_base64 = .error msg →
      run_inference payload config detector model =
        .error (.validation msg (some "image_base64"))) := by
  constructor
  · intro s
    unfold load_base64_image
    split
    · exact Or.inr ⟨_, rfl, Or.inl rfl⟩
    · split
      · exact Or.inr ⟨_, rfl, Or.inr (Or.inl rfl)⟩
      · split
        · next e heq =>
          refine Or.inr ⟨e, rfl, ?_⟩
          rcases _parse_payload_cases _ with ⟨img, hok⟩ | hm | hm | hm
          · rw [heq] at hok
            exact absurd hok (by simp)
          · exact Or.inr (Or.inr (Or.inl (Except.error.inj (heq.symm.trans hm))))
          · exact Or.inr (Or.inr (Or.inr (Or.inl (Except.error.inj (heq.symm.trans hm)))))
          · exact Or.inr (Or.inr (Or.inr (Or.inr (Except.error.inj (heq.symm.trans hm)))))
        · exact Or.inl ⟨_, rfl⟩
  · intro payload config request msg detector model hreq hload
    simp only [run_inference, hreq, hload]

/-- Witness for C4 (amended): the concrete out-of-range payload is rejected
with its kind-specific message, and `run_inference` surfaces it as a
`ValidationError` on `image_base64`. -/
theorem load_base64_image_error_class_witness :
    (∃ msg, load_base64_image "NSw1LDMwMC4w" = .error msg ∧
      (msg = "Invalid base64 encoded image" ∨
       msg = "Image payload must be ASCII" ∨
       msg = "image payload must be width,height,intensity" ∨
       msg = "image dimensions must be positive" ∨
       msg = "intensity must be between 0 and 255")) ∧
    validate_payload payloadBadIntensity cfg0 = .ok requestBadIntensity ∧
    load_base64_image requestBadIntensity.image_base64 =
      .error "intensity must be between 0 and 255" ∧
    run_inference payloadBadIntensity cfg0 none none =
      .error (.validation "intensity must be between 0 and 255" (some "image_base64")) :=
  ⟨(load_base64_image_error_class.1 "NSw1LDMwMC4w").resolve_left
    (by
      rintro ⟨l, hl⟩
      rw [show load_base64_image "NSw1LDMwMC4w" =
          .error "intensity must be between 0 and 255" from by decide] at hl
      exact absurd hl (by simp)),
   by decide, by decide,
   load_base64_image_error_class.2 payloadBadIntensity cfg0 requestBadIntensity
     "intensity must be between 0 and 255" none none (by decide) (by decide)⟩

/-- A validated request always carries a confidence level strictly between
0 and 1 (it passed `_coerce_confidence_level`). -/
theorem validate_payload_confidence_range (payload : JsonValue) (config : AgeServiceConfig)
    (request : ValidatedRequest) (h : validate_payload payload config = .ok request) :
    0 < request.confidence_level ∧ request.confidence_level < 1 := by
  unfold validate_payload at h
  split at h
  · split at h
    · exact absurd h (by simp)
    · split at h
      · exact absurd h (by simp)
      · split at h
        · exact absurd h (by simp)
        · split at h
          · exact absurd h (by simp)
          · split at h
            · exact absurd h (by simp)
            · rename_i cl heq
              split at h
              · exact absurd h (by simp)
              · cases Except.ok.inj h
                unfold _coerce_confidence_level at heq
                split at heq
                · exact absurd heq (by simp)
                · split at heq
                  · exact absurd heq (by simp)
                  · next hcond =>
                    cases Except.ok.inj heq
                    exact not_not.mp hcond
        · exact absurd h (by simp)
  · exact absurd h (by simp)

/-- With no injected detector, `_resolve_detector` always yields the simple
detector (both branches of its configuration test return it). -/
theorem _resolve_detector_none (config : AgeServiceConfig) :
    _resolve_detector config none = simpleDetector := by
  simp only [_resolve_detector, ite_self]

/-- The simple detector never returns an empty detection list. -/
theorem detect_faces_ne_nil (image : SimpleImage) (hints : List FaceBoundingBox) :
    SimpleFaceDetector.detect_faces image hints ≠ [] := by
  unfold SimpleFaceDetector.detect_faces
  split
  · next hne => exact fun hc => hne (List.map_eq_nil_iff.mp hc)
  · simp

/-- The simple detector never flags a detection as occluded. -/
theorem detect_faces_unoccluded (image : SimpleImage) (hints : List FaceBoundingBox) :
    ∀ d ∈ SimpleFaceDetector.detect_faces image hints, d.occluded = false := by
  unfold SimpleFaceDetector.detect_faces
  split
  · intro d hd
    rcases List.mem_map.mp hd with ⟨hint, _, rfl⟩
    rfl
  · intro d hd
    rw [List.mem_singleton] at hd
    subst hd
    rfl

/-- Claim C1: a valid request with exactly one detector hint succeeds, and
the reported age is the default model's deterministic prediction on the
cropped-then-normalised image, which equals
`slope * (intensity / 255) + intercept = 60 * (intensity / 255) + 5`
because crop and resize carry the scalar intensity through unchanged. -/
theorem run_inference_single_hint_success (payload : JsonValue) (config : AgeServiceConfig)
    (request : ValidatedRequest) (loaded : LoadedImage) (hint : FaceBoundingBox)
    (hreq : validate_payload payload config = .ok request)
    (hload : load_base64_image request.image_base64 = .ok loaded)
    (hsize : ¬(min loaded.image.width loaded.image.height < config.min_image_edge))
    (hhints : request.detector_hints = [hint]) :
    ∃ r : Response, run_inference payload config none none = .ok r ∧
      r.status = "success" ∧
      r.age_value = ((_resolve_model config none).predict (normalise_image
        (crop_to_face loaded.image (FaceDetection.mk hint 0.9 false)))).value ∧
      r.age_value = 60 * (loaded.image.intensity / 255) + 5 := by
  obtain ⟨h0cl, h1cl⟩ := validate_payload_confidence_range payload config request hreq
  have hσ : (0 : ℚ) < ((_resolve_model config none).predict (normalise_image
      (crop_to_face loaded.image (FaceDetection.mk hint 0.9 false)))).uncertainty := by
    norm_num [_resolve_model, CalibratedLinearModel.predict]
  obtain ⟨lower, upper, hok, -⟩ :=
    confidence_interval_ok _ request.confidence_level h0cl hσ
  simp only [run_inference, hreq, hload, _validate_image_size, if_neg hsize,
    _resolve_detector_none, simpleDetector, hhints, SimpleFaceDetector.detect_faces,
    ne_eq, List.cons_ne_nil, not_false_eq_true, if_true, List.map_cons, List.map_nil,
    not_true_eq_false, if_false, eq_self_iff_true, Bool.false_eq_true, hok]
  exact ⟨_, rfl, rfl, rfl, rfl⟩

/-- Witness for C1: the concrete one-hint request on the 256x256 intensity
180 image succeeds with `age.value = 60 * (180 / 255) + 5`. -/
theorem run_inference_single_hint_success_witness :
    validate_payload payloadOneHint cfg0 = .ok requestOneHint ∧
    load_base64_image requestOneHint.image_base64 = .ok loaded256 ∧
    ¬(min loaded256.image.width loaded256.image.height < cfg0.min_image_edge) ∧
    requestOneHint.detector_hints = [FaceBoundingBox.mk 10 10 100 120] ∧
    (∃ r, run_inference payloadOneHint cfg0 none none = .ok r ∧
      r.status = "success" ∧
      r.age_value = ((_resolve_model cfg0 none).predict (normalise_image
        (crop_to_face loaded256.image
          (FaceDetection.mk (FaceBoundingBox.mk 10 10 100 120) 0.9 false)))).value ∧
      r.age_value = 60 * (loaded256.image.intensity / 255) + 5) :=
  ⟨by decide, by decide, by decide, by decide,
   run_inference_single_hint_success payloadOneHint cfg0 requestOneHint loaded256
     (FaceBoundingBox.mk 10 10 100 120) (by decide) (by decide) (by decide) (by decide)⟩

/-- Claim C2: after detection, an empty detection list yields
`InferenceError` reason `no_faces`; two or more detections yield
`multiple_faces` (regardless of occlusion flags, i.e. the count check runs
first); a single occluded detection yields `occluded`. -/
theorem run_inference_detection_errors (payload : JsonValue) (config : AgeServiceConfig)
    (name : String) (ds : List FaceDetection) (model : Option AgeModelImpl)
    (request : ValidatedRequest) (loaded : LoadedImage)
    (hreq : validate_payload payload config = .ok request)
    (hload : load_base64_image request.image_base64 = .ok loaded)
    (hsize : ¬(min loaded.image.width loaded.image.height < config.min_image_edge)) :
    (ds = [] →
      run_inference payload config (some (Detector.mk name fun _ _ => ds)) model =
        .error (.inference "no faces detected" (some "no_faces"))) ∧
    (1 < ds.length →
      run_inference payload config (some (Detector.mk name fun _ _ => ds)) model =
        .error (.inference "multiple faces detected" (some "multiple_faces"))) ∧
    (∀ d, ds = [d] → d.occluded = true →
      run_inference payload config (some (Detector.mk name fun _ _ => ds)) model =
        .error (.inference "primary face appears occluded" (some "occluded"))) := by
  refine ⟨fun hnil => ?_, fun hlen => ?_, fun d hd hocc => ?_⟩
  · subst hnil
    simp only [run_inference, hreq, hload, _validate_image_size, if_neg hsize,
      _resolve_detector]
  · match ds, hlen with
    | d0 :: d1 :: rest, _ =>
      simp only [run_inference, hreq, hload, _validate_image_size, if_neg hsize,
        _resolve_detector, ne_eq, List.cons_ne_nil, not_false_eq_true, if_true]
  · subst hd
    simp only [run_inference, hreq, hload, _validate_image_size, if_neg hsize,
      _resolve_detector, ne_eq, not_true_eq_false, if_false, eq_self_iff_true,
      hocc, if_true]

/-- Witness for C2: the three detection outcomes on concrete stub
detectors. -/
theorem run_inference_detection_errors_witness :
    run_inference payloadNoHints cfg0 (some (Detector.mk "stub" fun _ _ => [])) none =
      .error (.inference "no faces detected" (some "no_faces")) ∧
    run_inference payloadNoHints cfg0 (some (Detector.mk "stub" fun _ _ =>
        [FaceDetection.mk (FaceBoundingBox.mk 1 1 2 2) 0.9 true,
         FaceDetection.mk (FaceBoundingBox.mk 1 1 2 2) 0.8 true])) none =
      .error (.inference "multiple faces detected" (some "multiple_faces")) ∧
    run_inference payloadNoHints cfg0 (some (Detector.mk "stub" fun _ _ =>
        [FaceDetection.mk (FaceBoundingBox.mk 5 5 100 100) 0.9 true])) none =
      .error (.inference "primary face appears occluded" (some "occluded")) :=
  ⟨(run_inference_detection_errors payloadNoHints cfg0 "stub" [] none
      requestNoHints loaded256 (by decide) (by decide) (by decide)).1 rfl,
   (run_inference_detection_errors payloadNoHints cfg0 "stub"
      [FaceDetection.mk (FaceBoundingBox.mk 1 1 2 2) 0.9 true,
       FaceDetection.mk (FaceBoundingBox.mk 1 1 2 2) 0.8 true] none
      requestNoHints loaded256 (by decide) (by decide) (by decide)).2.1 (by decide),
   (run_inference_detection_errors payloadNoHints cfg0 "stub"
      [FaceDetection.mk (FaceBoundingBox.mk 5 5 100 100) 0.9 true] none
      requestNoHints loaded256 (by decide) (by decide) (by decide)).2.2
     (FaceDetection.mk (FaceBoundingBox.mk 5 5 100 100) 0.9 true) rfl rfl⟩

/-- Claim C9: the simple detector always returns a non-empty, unoccluded
detection list, so with the default detector resolution `run_inference`
can never fail with reason `no_faces` or `occluded` — any inference error
it raises has reason `multiple_faces`. -/
theorem simple_detector_reasons :
    (∀ (image : SimpleImage) (hints : List FaceBoundingBox),
      SimpleFaceDetector.detect_faces image hints ≠ [] ∧
      ∀ d ∈ SimpleFaceDetector.detect_faces image hints, d.occluded = false) ∧
    (∀ (payload : JsonValue) (config : AgeServiceConfig) (model : Option AgeModelImpl)
        (msg : String) (reason : Option String),
      run_inference payload config none model = .error (.inference msg reason) →
      reason = some "multiple_faces") := by
  constructor
  · intro image hints
    exact ⟨detect_faces_ne_nil image hints, detect_faces_unoccluded image hints⟩
  · intro payload config model msg reason h
    simp only [run_inference, _resolve_detector_none, simpleDetector] at h
    split at h
    · next e heq =>
      rcases validate_payload_error_cases _ _ _ heq with
        hc | ⟨m, hc⟩ | ⟨m, hc⟩ | ⟨m, hc⟩ | ⟨m, hc⟩ <;>
        subst hc <;> exact absurd (Except.error.inj h) (by simp)
    · next request heqreq =>
      split at h
      · exact absurd (Except.error.inj h) (by simp)
      · next loaded heqload =>
        split at h
        · next e heq =>
          unfold _validate_image_size at heq
          split at heq
          · cases Except.error.inj heq
            exact absurd (Except.error.inj h) (by simp)
          · exact absurd heq (by simp)
        · split at h
          · next heq => exact absurd heq (detect_faces_ne_nil _ _)
          · next detection rest heq =>
            split at h
            · injection (Except.error.inj h) with h1 h2
              exact h2.symm
            · split at h
              · next hocc =>
                have hmem : detection ∈
                    SimpleFaceDetector.detect_faces loaded.image request.detector_hints := by
                  rw [heq]
                  exact List.mem_cons_self _ _
                have hfalse := detect_faces_unoccluded _ _ detection hmem
                rw [hfalse] at hocc
                exact absurd hocc (by simp)
              · split at h
                · exact absurd (Except.error.inj h) (by simp)
                · exact absurd h (by simp)

/-- Witness for C9: the simple detector finds a face on the plain 256x256
image, and the concrete two-hint request produces exactly the
`multiple_faces` inference error. -/
theorem simple_detector_reasons_witness :
    SimpleFaceDetector.detect_faces loaded256.image [] ≠ [] ∧
    run_inference payloadTwoHints cfg0 none none =
      .error (.inference "multiple faces detected" (some "multiple_faces")) ∧
    (some "multiple_faces" : Option String) = some "multiple_faces" := by
  have hrun : run_inference payloadTwoHints cfg0 none none =
      .error (.inference "multiple faces detected" (some "multiple_faces")) := by
    have h1 : validate_payload payloadTwoHints cfg0 = .ok requestTwoHints := by decide
    have h2 : load_base64_image "MjU2LDI1NiwxODAuMA==" = .ok loaded256 := by decide
    have h3 : ¬(min loaded256.image.width loaded256.image.height < cfg0.min_image_edge) := by
      decide
    simp only [run_inference, h1, h2, _validate_image_size, if_neg h3,
      _resolve_detector_none, simpleDetector, requestTwoHints,
      SimpleFaceDetector.detect_faces, ne_eq, List.cons_ne_nil, not_false_eq_true,
      if_true, List.map_cons, List.map_nil]
  exact ⟨(simple_detector_reasons.1 loaded256.image []).1, hrun,
    simple_detector_reasons.2 payloadTwoHints cfg0 none "multiple faces detected"
      (some "multiple_faces") hrun⟩

end AgeService

end AgeServiceVerification
